import Mathlib

/-!
Verification of `src/router/src/routing/src/routing.cc` (MySQL Router routing
helpers): the strategy/mode name registry and the destination
connection-establishment engine `RoutingSockOps::get_mysql_socket`.

The registry functions are translated directly from the source.  The enums
`AccessMode` and `RoutingStrategy` live in the header `mysqlrouter/routing.h`,
which is not part of the provided sources; their layout is pinned by the
source's `keep in-sync` comments (index 0 is the undefined sentinel) and by the
spec's data model.  `mysql_harness::serial_comma` is likewise external and is
modelled from the spec.

The engine is embedded as a pure function over an `Env` describing the
responses of the external collaborators (resolver and socket-operations
capability), producing both the returned value and a trace of the operations
performed on the capability, so that resource and ordering properties can be
stated about the trace.
-/

namespace Routing

/-- Modelled from the spec: `enum class AccessMode` from the missing header
`mysqlrouter/routing.h`. The source's comment `keep in-sync with enum
AccessMode` next to `kAccessModeNames = {nullptr, "read-write", "read-only"}`
pins value 0 as the undefined sentinel followed by read-write and read-only. -/
inductive AccessMode
  | kUndefined
  | kReadWrite
  | kReadOnly
deriving DecidableEq, Repr

/-- Modelled from the spec: `enum class RoutingStrategy` from the missing
header `mysqlrouter/routing.h`, pinned by the source's `keep in-sync with enum
RoutingStrategy` comment on `kRoutingStrategyNames`. -/
inductive RoutingStrategy
  | kUndefined
  | kFirstAvailable
  | kNextAvailable
  | kRoundRobin
  | kRoundRobinWithFallback
deriving DecidableEq, Repr

/-- The cast `static_cast<AccessMode>(i)` for the indices the lookup loop produces. -/
def accessModeOfIndex : Nat → AccessMode
  | 1 => .kReadWrite
  | 2 => .kReadOnly
  | _ => .kUndefined

/-- Index of an `AccessMode` into `kAccessModeNames` (`static_cast<int>`). -/
def AccessMode.toIndex : AccessMode → Nat
  | .kUndefined => 0
  | .kReadWrite => 1
  | .kReadOnly => 2

/-- The cast `static_cast<RoutingStrategy>(i)` for the indices the loop produces. -/
def routingStrategyOfIndex : Nat → RoutingStrategy
  | 1 => .kFirstAvailable
  | 2 => .kNextAvailable
  | 3 => .kRoundRobin
  | 4 => .kRoundRobinWithFallback
  | _ => .kUndefined

/-- Index of a `RoutingStrategy` into `kRoutingStrategyNames`. -/
def RoutingStrategy.toIndex : RoutingStrategy → Nat
  | .kUndefined => 0
  | .kFirstAvailable => 1
  | .kNextAvailable => 2
  | .kRoundRobin => 3
  | .kRoundRobinWithFallback => 4

/-- The array `kAccessModeNames`: `{nullptr, "read-write", "read-only"}` (a `nullptr`
entry is `none`). -/
def kAccessModeNames : List (Option String) :=
  [none, some "read-write", some "read-only"]

/-- The array `kRoutingStrategyNames`: `{nullptr, "first-available", "next-available",
"round-robin", "round-robin-with-fallback"}`. -/
def kRoutingStrategyNames : List (Option String) :=
  [none, some "first-available", some "next-available", some "round-robin",
   some "round-robin-with-fallback"]

/-- The lookup loop `for (i = 1; i < names.size(); ++i) if (names[i] == value)
return i;` shared by `get_access_mode` and `get_routing_strategy`: walks the
names starting at index `i`, returning the index of the first match, or 0
(the undefined sentinel's index) if none matches. -/
def nameIndexFrom (value : String) : Nat → List (Option String) → Nat
  | _, [] => 0
  | i, n :: rest => if n = some value then i else nameIndexFrom value (i + 1) rest

/-- Source function `AccessMode get_access_mode(const std::string &value)`. -/
def get_access_mode (value : String) : AccessMode :=
  accessModeOfIndex (nameIndexFrom value 1 (kAccessModeNames.drop 1))

/-- Source function `std::string get_access_mode_name(AccessMode)`. -/
def get_access_mode_name (access_mode : AccessMode) : String :=
  if access_mode = AccessMode.kUndefined then "<not-set>"
  else (kAccessModeNames.getD access_mode.toIndex none).getD ""

/-- Source function `RoutingStrategy get_routing_strategy(const std::string &value)`. -/
def get_routing_strategy (value : String) : RoutingStrategy :=
  routingStrategyOfIndex (nameIndexFrom value 1 (kRoutingStrategyNames.drop 1))

/-- Source function `std::string get_routing_strategy_name(RoutingStrategy)`. -/
def get_routing_strategy_name (routing_strategy : RoutingStrategy) : String :=
  if routing_strategy = RoutingStrategy.kUndefined then "<not set>"
  else (kRoutingStrategyNames.getD routing_strategy.toIndex none).getD ""

/-- Modelled from the spec: `mysql_harness::serial_comma` (from the missing
`common.h`), described by the spec as the comma/"and"-joined display list. -/
def serial_comma : List String → String
  | [] => ""
  | [a] => a
  | [a, b] => a ++ " and " ++ b
  | a :: rest => a ++ ", " ++ serial_comma rest

/-- The local array `kRoutingStrategyNamesStatic` (in
`get_routing_strategy_names`): round-robin-with-fallback is not supported for
static routing. -/
def kRoutingStrategyNamesStatic : List String :=
  ["first-available", "next-available", "round-robin"]

/-- The local array `kRoutingStrategyNamesMetadataCache`: next-available is not supported for
metadata-cache routing. -/
def kRoutingStrategyNamesMetadataCache : List String :=
  ["first-available", "round-robin", "round-robin-with-fallback"]

/-- Source function `std::string get_routing_strategy_names(bool metadata_cache)`. -/
def get_routing_strategy_names (metadata_cache : Bool) : String :=
  serial_comma
    (if metadata_cache then kRoutingStrategyNamesMetadataCache
     else kRoutingStrategyNamesStatic)

/-- Error conditions compared against in `get_mysql_socket`
(`std::errc::...`); `other n` stands for any further `std::error_code`. -/
inductive ErrC
  | inProgress
  | wouldBlock
  | timedOut
  | connectionRefused
  | other : Nat → ErrC
deriving DecidableEq, Repr

/-- One `struct addrinfo` node of the resolver's result list (the fields
`get_mysql_socket` reads); `ai_addr` is an abstract address identity. -/
structure Addrinfo where
  ai_family : Nat
  ai_socktype : Nat
  ai_protocol : Nat
  ai_addr : Nat
deriving DecidableEq, Repr

/-- The constant `SOCK_NONBLOCK`, or-ed into the socket type on the linux/freebsd path. -/
def SOCK_NONBLOCK : Nat := 2048

instance {ε α : Type} [DecidableEq ε] [DecidableEq α] : DecidableEq (Except ε α) := fun a b =>
  match a, b with
  | .error e, .error f =>
    decidable_of_iff (e = f) (by constructor <;> (intro h; first | rw [h] | (cases h; rfl)))
  | .error _, .ok _ => isFalse (by intro h; cases h)
  | .ok _, .error _ => isFalse (by intro h; cases h)
  | .ok x, .ok y =>
    decidable_of_iff (x = y) (by constructor <;> (intro h; first | rw [h] | (cases h; rfl)))

/-- An operation performed on the injected socket-operations capability (or a
log emission), as recorded in the trace of one `get_mysql_socket` call. -/
inductive Ev
  | socketCreate : Nat → Nat → Nat → Except ErrC Nat → Ev
  | setBlocking : Nat → Bool → Ev
  | connect : Nat → Nat → Except ErrC Unit → Ev
  | wait : Nat → Nat → Except ErrC Unit → Ev
  | status : Nat → Except ErrC Unit → Ev
  | setsockopt : Nat → Except ErrC Unit → Ev
  | close : Nat → Ev
  | logDebug | logWarning | logError
deriving DecidableEq, Repr

/-- The collaborator responses consumed while handling one candidate:
`net::impl::socket::socket`, `net::impl::socket::connect`,
`so_->connect_non_blocking_wait` and `so_->connect_non_blocking_status`.
Fields that a run does not reach are simply not consulted. -/
structure CandidateBehavior where
  socket_res : Except ErrC Nat
  connect_res : Except ErrC Unit
  wait_res : Except ErrC Unit
  status_res : Except ErrC Unit

/-- The environment of one `get_mysql_socket` invocation: the result of
`net::impl::resolver::getaddrinfo` for the call's address, the behavior of the
socket capability for the i-th candidate, and the result of the final
`setsockopt(..., TCP_NODELAY, ...)` on the winning socket. -/
structure Env where
  addrinfo_res : Except ErrC (List Addrinfo)
  behav : Nat → CandidateBehavior
  sockopt_res : Except ErrC Unit

/-- Result of the candidate loop of `get_mysql_socket`: the winning socket (if
the loop broke before exhausting `info`), the final value of the
`timeout_expired` flag, and the events emitted. -/
structure LoopOut where
  winner : Option Nat
  timedOut : Bool
  trace : List Ev
deriving Repr

/-- The candidate loop `for (; info != nullptr; info = info->ai_next)` of
`RoutingSockOps::get_mysql_socket`, over the remaining candidates, where `idx`
numbers the current candidate and `te` is the current `timeout_expired` flag.
Each branch mirrors the source: socket-creation failure logs and moves on;
immediate connect success breaks with a winner; a would-block/in-progress
connect waits for writability (a failed wait assigns
`timeout_expired = (wait error == timed_out)`), then checks the connect
status; every non-winning path closes the candidate's socket. -/
def tryCandidates (env : Env) (timeout : Nat) : Nat → Bool → List Addrinfo → LoopOut
  | _, te, [] => ⟨none, te, []⟩
  | idx, te, info :: rest =>
    match (env.behav idx).socket_res with
    | .error e =>
      let r := tryCandidates env timeout (idx + 1) te rest
      ⟨r.winner, r.timedOut,
        Ev.socketCreate info.ai_family (Nat.lor info.ai_socktype SOCK_NONBLOCK)
            info.ai_protocol (.error e) :: Ev.logError :: r.trace⟩
    | .ok sock =>
      let pre : List Ev :=
        [Ev.socketCreate info.ai_family (Nat.lor info.ai_socktype SOCK_NONBLOCK)
            info.ai_protocol (.ok sock),
         Ev.setBlocking sock false,
         Ev.connect sock info.ai_addr (env.behav idx).connect_res]
      match (env.behav idx).connect_res with
      | .ok _ => ⟨some sock, te, pre⟩
      | .error ce =>
        if ce = ErrC.inProgress ∨ ce = ErrC.wouldBlock then
          match (env.behav idx).wait_res with
          | .error we =>
            let r := tryCandidates env timeout (idx + 1) (we = ErrC.timedOut) rest
            ⟨r.winner, r.timedOut,
              pre ++ Ev.wait sock timeout (.error we) :: Ev.logWarning ::
                Ev.close sock :: r.trace⟩
          | .ok _ =>
            match (env.behav idx).status_res with
            | .ok _ => ⟨some sock, te, pre ++ [Ev.wait sock timeout (.ok ()), Ev.status sock (.ok ())]⟩
            | .error se =>
              let r := tryCandidates env timeout (idx + 1) te rest
              ⟨r.winner, r.timedOut,
                pre ++ Ev.wait sock timeout (.ok ()) :: Ev.status sock (.error se) ::
                  Ev.close sock :: r.trace⟩
        else
          let r := tryCandidates env timeout (idx + 1) te rest
          ⟨r.winner, r.timedOut, pre ++ Ev.logDebug :: Ev.close sock :: r.trace⟩

/-- Result of one `get_mysql_socket` call: the returned
`stdx::expected<native_handle_type, error_code>` and the event trace. -/
structure RunOut where
  result : Except ErrC Nat
  trace : List Ev
deriving Repr

/-- Source function `RoutingSockOps::get_mysql_socket(addr, connect_timeout_ms, log)`:
resolution failure short-circuits (logging it only when `log` is set); then
the candidate loop runs with `timeout_expired = false`; exhaustion returns
`timed_out` or `connection_refused` according to the flag; a winner is
switched back to blocking mode and has `TCP_NODELAY` enabled, a failure of
which closes the socket and returns the `setsockopt` error. -/
def get_mysql_socket (env : Env) (timeout : Nat) (log : Bool) : RunOut :=
  match env.addrinfo_res with
  | .error e => ⟨.error e, if log then [Ev.logDebug] else []⟩
  | .ok infos =>
    let r := tryCandidates env timeout 0 false infos
    match r.winner with
    | none =>
      ⟨.error (if r.timedOut then ErrC.timedOut else ErrC.connectionRefused), r.trace⟩
    | some sock =>
      match env.sockopt_res with
      | .error e =>
        ⟨.error e,
          r.trace ++ [Ev.setBlocking sock true, Ev.setsockopt sock (.error e),
            Ev.logDebug, Ev.close sock]⟩
      | .ok _ =>
        ⟨.ok sock,
          r.trace ++ [Ev.setBlocking sock true, Ev.setsockopt sock (.ok ())]⟩

/-- One step of the open-socket accounting over a trace: a successful
`socketCreate` opens its handle, `close` removes one occurrence of it. -/
def openStep (acc : List Nat) : Ev → List Nat
  | .socketCreate _ _ _ (.ok h) => acc ++ [h]
  | .close h => acc.erase h
  | _ => acc

/-- The handles created but not closed by a trace. -/
def openSockets (tr : List Ev) : List Nat :=
  tr.foldl openStep []

/-- Returns `true` iff, starting from the open handles `acc`, at every point of the
trace at most one socket handle is open. -/
def boundedOpenFrom (acc : List Nat) : List Ev → Bool
  | [] => true
  | e :: es => decide ((openStep acc e).length ≤ 1) && boundedOpenFrom (openStep acc e) es

/-- The addresses passed to `connect`, in trace order. -/
def connectAddrs (tr : List Ev) : List Nat :=
  tr.filterMap fun e =>
    match e with
    | .connect _ a _ => some a
    | _ => none

/-- The addresses passed to `connect` on the given socket handle. -/
def connectsOn (s : Nat) (tr : List Ev) : List Nat :=
  tr.filterMap fun e =>
    match e with
    | .connect s2 a _ => if s2 = s then some a else none
    | _ => none

/-- How many times the trace closes the given handle. -/
def closeCount (s : Nat) (tr : List Ev) : Nat :=
  tr.count (Ev.close s)

/-- Whether the trace contains any socket-creation operation. -/
def isSocketCreate : Ev → Bool
  | .socketCreate _ _ _ _ => true
  | _ => false

/-- The blocking mode established by the last `setBlocking` on handle `s`
(`none` if the trace never sets the mode of `s`). -/
def lastBlocking (s : Nat) (tr : List Ev) : Option Bool :=
  tr.foldl
    (fun acc e =>
      match e with
      | .setBlocking s2 b => if s2 = s then some b else acc
      | _ => acc)
    none

/-- Whether a writability wait failed with `timed_out`, starting from flag
`acc` and overwriting the flag at each failed wait — the trace-level mirror of
the `timeout_expired` variable. -/
def lastWaitFailTimedOutFrom (acc : Bool) (tr : List Ev) : Bool :=
  tr.foldl
    (fun acc e =>
      match e with
      | .wait _ _ (.error we) => decide (we = ErrC.timedOut)
      | _ => acc)
    acc

/-- Whether the last failed writability wait of the trace (if any) ended with
`timed_out`. -/
def lastWaitFailTimedOut (tr : List Ev) : Bool :=
  lastWaitFailTimedOutFrom false tr

/-- Whether the trace records some writability wait that ended with a
`timed_out` error (a timeout was observed during the attempt). -/
def timeoutObserved (tr : List Ev) : Bool :=
  tr.any fun e =>
    match e with
    | .wait _ _ (.error we) => we == ErrC.timedOut
    | _ => false

/-- Follows the spec's words (§4.1): a candidate wins when its connect
succeeds immediately, or when a would-block/in-progress connect is followed by
a successful writability wait and a successful connect-status check. -/
def candidateWins (b : CandidateBehavior) : Bool :=
  match b.connect_res with
  | .ok _ => true
  | .error ce =>
    if ce = ErrC.inProgress ∨ ce = ErrC.wouldBlock then
      match b.wait_res with
      | .ok _ =>
        match b.status_res with
        | .ok _ => true
        | .error _ => false
      | .error _ => false
    else false

/-- Follows the spec's words (§3, §4.1): the addresses that should be
connect-attempted — the resolved candidates in resolver order, skipping those
whose socket creation fails, stopping at the first winner. -/
def specConnectOrder (env : Env) : Nat → List Addrinfo → List Nat
  | _, [] => []
  | idx, info :: rest =>
    match (env.behav idx).socket_res with
    | .error _ => specConnectOrder env (idx + 1) rest
    | .ok _ =>
      if candidateWins (env.behav idx) then [info.ai_addr]
      else info.ai_addr :: specConnectOrder env (idx + 1) rest

/-- A resolved IPv4-style candidate used in the concrete scenarios. -/
def addrA : Addrinfo := ⟨2, 1, 6, 100⟩

/-- A resolved IPv6-style candidate used in the concrete scenarios. -/
def addrB : Addrinfo := ⟨10, 1, 6, 200⟩

/-- Capability behavior for candidates a scenario never reaches. -/
def bUnused : CandidateBehavior := ⟨.ok 99, .ok (), .ok (), .ok ()⟩

/-- Scenario: candidate 0's writability wait times out, candidate 1's
writability wait fails with a non-timeout error; both candidates lose. -/
def envTimeoutThenWaitFail : Env :=
  ⟨.ok [addrA, addrB],
   fun i =>
     if i = 0 then ⟨.ok 10, .error .inProgress, .error .timedOut, .ok ()⟩
     else if i = 1 then ⟨.ok 11, .error .inProgress, .error (.other 4), .ok ()⟩
     else bUnused,
   .ok ()⟩

/-- Scenario: candidate 0's writability wait times out, candidate 1 is
refused immediately by `connect`; both candidates lose. -/
def envTimeoutThenRefused : Env :=
  ⟨.ok [addrA, addrB],
   fun i =>
     if i = 0 then ⟨.ok 10, .error .inProgress, .error .timedOut, .ok ()⟩
     else if i = 1 then ⟨.ok 11, .error .connectionRefused, .ok (), .ok ()⟩
     else bUnused,
   .ok ()⟩

/-- Scenario from the spec's testable properties: candidate A fails
immediately, candidate B connects immediately. -/
def envRefusedThenOk : Env :=
  ⟨.ok [addrA, addrB],
   fun i =>
     if i = 0 then ⟨.ok 10, .error .connectionRefused, .ok (), .ok ()⟩
     else if i = 1 then ⟨.ok 11, .ok (), .ok (), .ok ()⟩
     else bUnused,
   .ok ()⟩

/-- Scenario: the only candidate connects immediately but enabling
`TCP_NODELAY` on the winning socket fails. -/
def envWinnerSockoptFail : Env :=
  ⟨.ok [addrA],
   fun _ => ⟨.ok 10, .ok (), .ok (), .ok ()⟩,
   .error (.other 7)⟩

/-- Scenario: the only candidate connects immediately and finalization
succeeds. -/
def envWinnerOk : Env :=
  ⟨.ok [addrA],
   fun _ => ⟨.ok 10, .ok (), .ok (), .ok ()⟩,
   .ok ()⟩

/-- Scenario: address resolution itself fails. -/
def envResolveFail : Env :=
  ⟨.error (.other 3), fun _ => bUnused, .ok ()⟩

theorem boundedOpenFrom_append (b : List Ev) :
    ∀ (a : List Ev) (acc : List Nat),
      boundedOpenFrom acc (a ++ b) =
        (boundedOpenFrom acc a && boundedOpenFrom (a.foldl openStep acc) b) := by
  intro a
  induction a with
  | nil => intro acc; simp [boundedOpenFrom]
  | cons e es ih => intro acc; simp [boundedOpenFrom, ih, Bool.and_assoc]

theorem tryCandidates_open (env : Env) (t : Nat) :
    ∀ (infos : List Addrinfo) (idx : Nat) (te : Bool),
      boundedOpenFrom [] (tryCandidates env t idx te infos).trace = true ∧
      (tryCandidates env t idx te infos).trace.foldl openStep [] =
        (match (tryCandidates env t idx te infos).winner with
         | some s => [s]
         | none => []) := by
  intro infos
  induction infos with
  | nil => intro idx te; simp [tryCandidates, boundedOpenFrom]
  | cons info rest ih =>
    intro idx te
    cases hb : (env.behav idx).socket_res with
    | error e =>
      have h := ih (idx + 1) te
      simpa [tryCandidates, hb, boundedOpenFrom, openStep] using h
    | ok sock =>
      cases hc : (env.behav idx).connect_res with
      | ok u =>
        simp [tryCandidates, hb, hc, boundedOpenFrom, openStep]
      | error ce =>
        by_cases hif : ce = ErrC.inProgress ∨ ce = ErrC.wouldBlock
        · cases hw : (env.behav idx).wait_res with
          | error we =>
            have h := ih (idx + 1) (decide (we = ErrC.timedOut))
            simpa [tryCandidates, hb, hc, hif, hw, boundedOpenFrom, openStep,
                   boundedOpenFrom_append, List.foldl_append] using h
          | ok u =>
            cases hs : (env.behav idx).status_res with
            | ok v =>
              simp [tryCandidates, hb, hc, hif, hw, hs, boundedOpenFrom, openStep]
            | error se =>
              have h := ih (idx + 1) te
              simpa [tryCandidates, hb, hc, hif, hw, hs, boundedOpenFrom, openStep,
                     boundedOpenFrom_append, List.foldl_append] using h
        · have h := ih (idx + 1) te
          simpa [tryCandidates, hb, hc, hif, boundedOpenFrom, openStep,
                 boundedOpenFrom_append, List.foldl_append] using h

theorem tryCandidates_connectAddrs (env : Env) (t : Nat) :
    ∀ (infos : List Addrinfo) (idx : Nat) (te : Bool),
      connectAddrs (tryCandidates env t idx te infos).trace =
        specConnectOrder env idx infos := by
  intro infos
  induction infos with
  | nil => intro idx te; simp [tryCandidates, specConnectOrder, connectAddrs]
  | cons info rest ih =>
    intro idx te
    cases hb : (env.behav idx).socket_res with
    | error e =>
      have h := ih (idx + 1) te
      simpa [tryCandidates, specConnectOrder, hb, connectAddrs] using h
    | ok sock =>
      cases hc : (env.behav idx).connect_res with
      | ok u =>
        simp [tryCandidates, specConnectOrder, hb, hc, connectAddrs, candidateWins]
      | error ce =>
        by_cases hif : ce = ErrC.inProgress ∨ ce = ErrC.wouldBlock
        · cases hw : (env.behav idx).wait_res with
          | error we =>
            have h := ih (idx + 1) (decide (we = ErrC.timedOut))
            simpa [tryCandidates, specConnectOrder, hb, hc, hif, hw, connectAddrs,
                   candidateWins] using h
          | ok u =>
            cases hs : (env.behav idx).status_res with
            | ok v =>
              simp [tryCandidates, specConnectOrder, hb, hc, hif, hw, hs,
                    connectAddrs, candidateWins]
            | error se =>
              have h := ih (idx + 1) te
              simpa [tryCandidates, specConnectOrder, hb, hc, hif, hw, hs,
                     connectAddrs, candidateWins] using h
        · have h := ih (idx + 1) te
          simpa [tryCandidates, specConnectOrder, hb, hc, hif, connectAddrs,
                 candidateWins] using h

theorem tryCandidates_timedOut (env : Env) (t : Nat) :
    ∀ (infos : List Addrinfo) (idx : Nat) (te : Bool),
      (tryCandidates env t idx te infos).timedOut =
        lastWaitFailTimedOutFrom te (tryCandidates env t idx te infos).trace := by
  intro infos
  induction infos with
  | nil => intro idx te; simp [tryCandidates, lastWaitFailTimedOutFrom]
  | cons info rest ih =>
    intro idx te
    cases hb : (env.behav idx).socket_res with
    | error e =>
      have h := ih (idx + 1) te
      simpa [tryCandidates, hb, lastWaitFailTimedOutFrom] using h
    | ok sock =>
      cases hc : (env.behav idx).connect_res with
      | ok u =>
        simp [tryCandidates, hb, hc, lastWaitFailTimedOutFrom]
      | error ce =>
        by_cases hif : ce = ErrC.inProgress ∨ ce = ErrC.wouldBlock
        · cases hw : (env.behav idx).wait_res with
          | error we =>
            have h := ih (idx + 1) (decide (we = ErrC.timedOut))
            simpa [tryCandidates, hb, hc, hif, hw, lastWaitFailTimedOutFrom,
                   List.foldl_append] using h
          | ok u =>
            cases hs : (env.behav idx).status_res with
            | ok v =>
              simp [tryCandidates, hb, hc, hif, hw, hs, lastWaitFailTimedOutFrom,
                    List.foldl_append]
            | error se =>
              have h := ih (idx + 1) te
              simpa [tryCandidates, hb, hc, hif, hw, hs, lastWaitFailTimedOutFrom,
                     List.foldl_append] using h
        · have h := ih (idx + 1) te
          simpa [tryCandidates, hb, hc, hif, lastWaitFailTimedOutFrom,
                 List.foldl_append] using h

/-- Claim C2: in every invocation of `get_mysql_socket`, every socket created
for a non-winning candidate is closed before the next candidate is tried or
before the call returns (at every point of the trace at most one handle is
open), and exactly the winner's handle survives past the return — also on the
path where setting the no-delay option fails after a winning connect. -/
theorem get_mysql_socket_socket_discipline (env : Env) (t : Nat) (log : Bool) :
    boundedOpenFrom [] (get_mysql_socket env t log).trace = true ∧
    openSockets (get_mysql_socket env t log).trace =
      (match (get_mysql_socket env t log).result with
       | .ok s => [s]
       | .error _ => []) := by
  cases hres : env.addrinfo_res with
  | error e =>
    cases log <;> simp [get_mysql_socket, hres, openSockets, boundedOpenFrom, openStep]
  | ok infos =>
    have h := tryCandidates_open env t infos 0 false
    cases hw : (tryCandidates env t 0 false infos).winner with
    | none =>
      rw [hw] at h
      simpa [get_mysql_socket, hres, hw, openSockets] using h
    | some s =>
      rw [hw] at h
      cases hso : env.sockopt_res with
      | error e =>
        simp only [get_mysql_socket, hres, hw, hso, openSockets]
        constructor
        · rw [boundedOpenFrom_append, h.1, h.2]
          simp [boundedOpenFrom, openStep]
        · rw [List.foldl_append, h.2]
          simp [openStep]
      | ok u =>
        simp only [get_mysql_socket, hres, hw, hso, openSockets]
        constructor
        · rw [boundedOpenFrom_append, h.1, h.2]
          simp [boundedOpenFrom, openStep]
        · rw [List.foldl_append, h.2]
          simp [openStep]

/-- Claim C6: when address resolution fails, `get_mysql_socket` returns the
resolution failure immediately and performs no socket-creation operation on
the socket capability. -/
theorem resolution_failure_short_circuits (env : Env) (t : Nat) (log : Bool)
    (e : ErrC) (hres : env.addrinfo_res = .error e) :
    (get_mysql_socket env t log).result = .error e ∧
    (get_mysql_socket env t log).trace.filter isSocketCreate = [] := by
  cases log <;> simp [get_mysql_socket, hres, isSocketCreate]

/-- Claim C6 witness: a concrete resolver failure. -/
theorem resolution_failure_short_circuits_witness :
    (get_mysql_socket envResolveFail 100 true).result = .error (.other 3) ∧
    (get_mysql_socket envResolveFail 100 true).trace.filter isSocketCreate = [] :=
  resolution_failure_short_circuits envResolveFail 100 true (.other 3) rfl

/-- Claim C7: the outcome returned by `get_mysql_socket` is identical whether
its `log` parameter is true or false, for every environment and timeout. -/
theorem result_independent_of_log_flag (env : Env) (t : Nat) (b1 b2 : Bool) :
    (get_mysql_socket env t b1).result = (get_mysql_socket env t b2).result := by
  cases hres : env.addrinfo_res with
  | error e => simp [get_mysql_socket, hres]
  | ok infos => simp [get_mysql_socket, hres]

/-- Claim C1 counterexample: candidate 0's writability wait times out (a
timeout is observed during the attempt) and candidate 1's writability wait
then fails with a non-timeout error; the candidate sequence is exhausted, yet
the call returns `connection_refused`, not `timed_out` as the claim demands. -/
theorem timeout_flag_not_sticky_cex :
    timeoutObserved (get_mysql_socket envTimeoutThenWaitFail 100 true).trace = true ∧
    (get_mysql_socket envTimeoutThenWaitFail 100 true).result =
      .error ErrC.connectionRefused ∧
    (get_mysql_socket envTimeoutThenWaitFail 100 true).result ≠
      .error ErrC.timedOut := by
  refine ⟨by decide, by decide, by decide⟩

/-- Claim C1 (amended): when resolution succeeds but the candidate sequence is
exhausted with no winner, the call returns `timed_out` if the most recent
failed writability wait of the attempt ended with a timed-out error (the flag
is overwritten on each failed wait), else `connection_refused`. -/
theorem exhaustion_error_tracks_last_wait_failure (env : Env) (t : Nat)
    (log : Bool) (infos : List Addrinfo)
    (hres : env.addrinfo_res = .ok infos)
    (hw : (tryCandidates env t 0 false infos).winner = none) :
    (get_mysql_socket env t log).result =
      .error
        (if lastWaitFailTimedOut (get_mysql_socket env t log).trace
         then ErrC.timedOut else ErrC.connectionRefused) := by
  have h := tryCandidates_timedOut env t infos 0 false
  simp only [get_mysql_socket, hres, hw, lastWaitFailTimedOut]
  rw [← h]

/-- Claim C1 witness: the amended statement at the concrete two-candidate
scenario whose waits fail with `timed_out` then a non-timeout error. -/
theorem exhaustion_error_tracks_last_wait_failure_witness :
    (get_mysql_socket envTimeoutThenWaitFail 100 true).result =
      .error
        (if lastWaitFailTimedOut (get_mysql_socket envTimeoutThenWaitFail 100 true).trace
         then ErrC.timedOut else ErrC.connectionRefused) :=
  exhaustion_error_tracks_last_wait_failure envTimeoutThenWaitFail 100 true
    [addrA, addrB] rfl (by decide)

/-- Claim C10: the timeout flag is overwritten on every failed writability
wait: after candidate 0's wait times out, a candidate 1 whose wait fails with
a non-timeout error makes exhaustion return `connection_refused`, whereas a
candidate 1 that is refused immediately by `connect` (never reaching a wait)
leaves the flag set and exhaustion returns `timed_out`. -/
theorem timeout_flag_overwrite_semantics :
    timeoutObserved (get_mysql_socket envTimeoutThenWaitFail 100 true).trace = true ∧
    (get_mysql_socket envTimeoutThenWaitFail 100 true).result =
      .error ErrC.connectionRefused ∧
    timeoutObserved (get_mysql_socket envTimeoutThenRefused 100 true).trace = true ∧
    (get_mysql_socket envTimeoutThenRefused 100 true).result =
      .error ErrC.timedOut := by
  refine ⟨by decide, by decide, by decide, by decide⟩

/-- Claim C9: the strategy-name listing is context-filtered: the
metadata-cache listing never contains "next-available", the static listing
never contains "round-robin-with-fallback", and both contain
"first-available" and "round-robin". -/
theorem strategy_names_context_filtered :
    ¬("next-available".toList <:+: (get_routing_strategy_names true).toList) ∧
    ¬("round-robin-with-fallback".toList <:+: (get_routing_strategy_names false).toList) ∧
    ("first-available".toList <:+: (get_routing_strategy_names true).toList) ∧
    ("first-available".toList <:+: (get_routing_strategy_names false).toList) ∧
    ("round-robin".toList <:+: (get_routing_strategy_names true).toList) ∧
    ("round-robin".toList <:+: (get_routing_strategy_names false).toList) := by
  refine ⟨by decide, by decide, by decide, by decide, by decide, by decide⟩

/-- Claim C3: `get_mysql_socket` attempts the resolved candidates in exactly
resolver order and stops at the first winning candidate (the connect-attempt
addresses of the trace coincide with the spec-side order function); in the
concrete `[A, B]` scenario where A is refused immediately and B connects
immediately, the returned socket is B's, it was connect-attempted only against
B's address, and A's socket was closed exactly once. -/
theorem get_mysql_socket_order_first_win :
    (∀ (env : Env) (t : Nat) (log : Bool) (infos : List Addrinfo),
        env.addrinfo_res = .ok infos →
        connectAddrs (get_mysql_socket env t log).trace = specConnectOrder env 0 infos) ∧
    (get_mysql_socket envRefusedThenOk 100 true).result = .ok 11 ∧
    connectsOn 11 (get_mysql_socket envRefusedThenOk 100 true).trace = [addrB.ai_addr] ∧
    closeCount 10 (get_mysql_socket envRefusedThenOk 100 true).trace = 1 := by
  refine ⟨?_, by decide, by decide, by decide⟩
  intro env t log infos hres
  have h := tryCandidates_connectAddrs env t infos 0 false
  cases hw : (tryCandidates env t 0 false infos).winner with
  | none => simpa [get_mysql_socket, hres, hw] using h
  | some s =>
    cases hso : env.sockopt_res with
    | error e =>
      simp only [get_mysql_socket, hres, hw, hso]
      simpa [connectAddrs, List.filterMap_append] using h
    | ok u =>
      simp only [get_mysql_socket, hres, hw, hso]
      simpa [connectAddrs, List.filterMap_append] using h

/-- Claim C3 witness: the order statement applied at the concrete `[A, B]`
scenario. -/
theorem get_mysql_socket_order_first_win_witness :
    connectAddrs (get_mysql_socket envRefusedThenOk 100 true).trace =
      specConnectOrder envRefusedThenOk 0 [addrA, addrB] :=
  get_mysql_socket_order_first_win.1 envRefusedThenOk 100 true [addrA, addrB] rfl

/-- Claim C4: if a candidate wins but enabling `TCP_NODELAY` on the winning
socket fails, the winning socket is closed, the call returns the option-set
failure error, and no socket handle is returned. -/
theorem sockopt_failure_closes_winner (env : Env) (t : Nat) (log : Bool)
    (infos : List Addrinfo) (s : Nat) (e : ErrC)
    (hres : env.addrinfo_res = .ok infos)
    (hw : (tryCandidates env t 0 false infos).winner = some s)
    (hso : env.sockopt_res = .error e) :
    (get_mysql_socket env t log).result = .error e ∧
    Ev.close s ∈ (get_mysql_socket env t log).trace ∧
    ∀ h, (get_mysql_socket env t log).result ≠ .ok h := by
  simp [get_mysql_socket, hres, hw, hso]

/-- Claim C4 witness: a winning connect followed by a failing `setsockopt`. -/
theorem sockopt_failure_closes_winner_witness :
    (get_mysql_socket envWinnerSockoptFail 100 true).result = .error (.other 7) ∧
    Ev.close 10 ∈ (get_mysql_socket envWinnerSockoptFail 100 true).trace ∧
    ∀ h, (get_mysql_socket envWinnerSockoptFail 100 true).result ≠ .ok h :=
  sockopt_failure_closes_winner envWinnerSockoptFail 100 true [addrA] 10 (.other 7)
    rfl (by decide) rfl

/-- Claim C5: whenever `get_mysql_socket` returns a socket handle, the last
blocking-mode operation performed on that handle set it to blocking mode, and
the no-delay option was successfully enabled on it before return. -/
theorem connected_socket_blocking_nodelay (env : Env) (t : Nat) (log : Bool)
    (s : Nat) (hok : (get_mysql_socket env t log).result = .ok s) :
    lastBlocking s (get_mysql_socket env t log).trace = some true ∧
    Ev.setsockopt s (.ok ()) ∈ (get_mysql_socket env t log).trace := by
  cases hres : env.addrinfo_res with
  | error e => simp [get_mysql_socket, hres] at hok
  | ok infos =>
    cases hw : (tryCandidates env t 0 false infos).winner with
    | none => simp [get_mysql_socket, hres, hw] at hok
    | some w =>
      cases hso : env.sockopt_res with
      | error e => simp [get_mysql_socket, hres, hw, hso] at hok
      | ok u =>
        simp only [get_mysql_socket, hres, hw, hso, Except.ok.injEq] at hok
        subst hok
        simp [get_mysql_socket, hres, hw, hso, lastBlocking, List.foldl_append]

/-- Claim C5 witness: the configured-winner statement at a concrete winning
scenario. -/
theorem connected_socket_blocking_nodelay_witness :
    lastBlocking 10 (get_mysql_socket envWinnerOk 100 true).trace = some true ∧
    Ev.setsockopt 10 (.ok ()) ∈ (get_mysql_socket envWinnerOk 100 true).trace :=
  connected_socket_blocking_nodelay envWinnerOk 100 true 10 rfl

/-- Claim C8: for every non-Undefined routing strategy `v`,
`get_routing_strategy (get_routing_strategy_name v) = v`, and for every
non-Undefined access mode `m`, `get_access_mode (get_access_mode_name m) = m`. -/
theorem name_enum_roundtrip :
    (∀ v : RoutingStrategy, v ≠ RoutingStrategy.kUndefined →
        get_routing_strategy (get_routing_strategy_name v) = v) ∧
    (∀ m : AccessMode, m ≠ AccessMode.kUndefined →
        get_access_mode (get_access_mode_name m) = m) := by
  constructor
  · intro v hv
    cases v <;> first | exact absurd rfl hv | decide
  · intro m hm
    cases m <;> first | exact absurd rfl hm | decide

/-- Claim C8 witness: the round-trip at concrete enum values. -/
theorem name_enum_roundtrip_witness :
    get_routing_strategy (get_routing_strategy_name RoutingStrategy.kRoundRobin) =
      RoutingStrategy.kRoundRobin ∧
    get_access_mode (get_access_mode_name AccessMode.kReadOnly) = AccessMode.kReadOnly :=
  ⟨name_enum_roundtrip.1 RoutingStrategy.kRoundRobin (by decide),
   name_enum_roundtrip.2 AccessMode.kReadOnly (by decide)⟩

end Routing
